import Mathlib

/-!
Shallow embedding of the gif-collector core pipeline:
  * `src/recorder/utils/ffmpeg.js` — `convertToGif` (two-pass GIF encoding),
  * `src/recorder/WebInteractionRecorder.js` — the flow executor,
  * `src/config/settings.js` — the configuration object.

External effects (the ffmpeg process, the Playwright page, the clock and the
uuid generator) are modelled as explicit environment records; the file system
is a list of existing paths.  JavaScript truthiness on optional numbers and
strings is modelled explicitly (`jsOrNat`, `optTruthy`, …) since the source
uses `||` and `if (x)` on such values.
-/

/-- A JavaScript value as it appears in a step's `value` field: a string, a
number, or absent (`undefined`). -/
inductive JsVal where
  | str (s : String)
  | num (n : Nat)
  | undef
deriving DecidableEq, Repr

/-- JavaScript truthiness of a `JsVal`: `undefined`, `0` and `""` are falsy. -/
def JsVal.truthy : JsVal → Bool
  | .str s => s ≠ ""
  | .num n => n ≠ 0
  | .undef => false

/-- `a || b` on JavaScript values. -/
def jsOr (v d : JsVal) : JsVal := if v.truthy then v else d

/-- `a || b` where `a` is an optional number (absent or held in a field) and
`b` a number: JavaScript returns `b` when `a` is `undefined` or `0`. -/
def jsOrNat : Option Nat → Nat → Nat
  | some n, d => if n = 0 then d else n
  | none, d => d

/-- `a || b` on optional integers (used for scroll offsets). -/
def jsOrInt : Option Int → Int → Int
  | some n, d => if n = 0 then d else n
  | none, d => d

/-- `a || b` where `a` is an optional string: `undefined` and `""` are falsy. -/
def jsOrStr : Option String → String → String
  | some s, d => if s = "" then d else s
  | none, d => d

/-- JavaScript truthiness of an optional string (`if (selector)`). -/
def optTruthy : Option String → Bool
  | some s => s ≠ ""
  | none => false

/-- `p.isPrefixOf s` on character lists, written out so the development is
self-contained. -/
def headMatches : List Char → List Char → Bool
  | [], _ => true
  | _ :: _, [] => false
  | p :: ps, c :: cs => p = c && headMatches ps cs

/-- One rewrite of the first occurrence of `pat` by `rep`, on character
lists; the JavaScript `String.prototype.replace` with a string pattern
replaces only the first occurrence. -/
def replaceFirstAux (pat rep : List Char) : List Char → List Char
  | [] => []
  | c :: rest =>
    if headMatches pat (c :: rest) then rep ++ (c :: rest).drop pat.length
    else c :: replaceFirstAux pat rep rest

/-- JavaScript `s.replace(pat, rep)` with a string pattern: first occurrence
only. -/
def jsReplaceFirst (s pat rep : String) : String :=
  ⟨replaceFirstAux pat.data rep.data s.data⟩

/-- `path.join(a, b)` for the simple two-argument uses in the source. -/
def pathJoin (a b : String) : String := a ++ "/" ++ b

/-! ## Encoding pipeline — `src/recorder/utils/ffmpeg.js` -/

/-- The `options` argument of `convertToGif`; fields are optional because the
source applies destructuring defaults (`fps = 10`, `scale = '800:-1'`,
`quality = 'medium'`, `startTime = 0`, `duration = null`). -/
structure GifOptionsIn where
  fps : Option Nat := none
  scale : Option String := none
  quality : Option String := none
  startTime : Option Nat := none
  duration : Option Nat := none
deriving DecidableEq, Repr

/-- One entry of the in-code `qualitySettings` table. -/
structure QualitySetting where
  colors : Nat
  dither : String
deriving DecidableEq, Repr

/-- The `qualitySettings` lookup of `convertToGif`: `low`, `medium` and
`high` are the only keys. -/
def qualitySettings (q : String) : Option QualitySetting :=
  if q = "low" then some ⟨64, "sierra2_4a"⟩
  else if q = "medium" then some ⟨128, "floyd_steinberg"⟩
  else if q = "high" then some ⟨256, "floyd_steinberg"⟩
  else none

/-- `qualitySettings[quality] || qualitySettings.medium`. -/
def resolvedQuality (q : String) : QualitySetting :=
  (qualitySettings q).getD ⟨128, "floyd_steinberg"⟩

/-- The scale video filter shared by both passes. -/
def scaleFilter (scale : String) : String :=
  "scale=" ++ scale ++ ":flags=lanczos"

/-- The palette-generation filter of pass 1. -/
def palettegenFilter (colors : Nat) : String :=
  "palettegen=max_colors=" ++ toString colors ++ ":stats_mode=diff"

/-- The palette-application filter of pass 2. -/
def paletteuseFilter (dither : String) : String :=
  "paletteuse=dither=" ++ dither ++ ":bayer_scale=5:diff_mode=rectangle"

/-- One ffmpeg invocation as assembled by `convertToGif`: input files, frame
rate, video filters, output path, optional seek offset and duration. -/
structure PassCmd where
  inputs : List String
  fps : Nat
  filters : List String
  output : String
  seek : Option Nat
  dur : Option Nat
deriving DecidableEq, Repr

/-- `if (duration) command.duration(duration)` — `null`/`0` are falsy. -/
def durationArg : Option Nat → Option Nat
  | some d => if d = 0 then none else some d
  | none => none

/-- `fs.unlinkSync(p)` guarded by `fs.existsSync(p)`, on a file system
modelled as the list of existing paths. -/
def unlinkIfExists (p : String) (fs : List String) : List String :=
  if p ∈ fs then fs.filter (fun q => q ≠ p) else fs

/-- Outcomes of the two external ffmpeg runs.  `pass1Error`/`pass2Error` are
`some msg` when the corresponding process signals failure.  `pass1Wrote`
records whether the (possibly partial) palette file exists at the moment the
first pass errors out — ffmpeg may fail after opening its output file. -/
structure ConvEnv where
  pass1Error : Option String := none
  pass1Wrote : Bool := true
  pass2Error : Option String := none
deriving DecidableEq, Repr

/-- What `convertToGif` produced: the promise outcome (resolved gif path or
rejection message), the resulting file system, and the ffmpeg invocations it
assembled, in order. -/
structure ConvResult where
  outcome : Except String String
  fs : List String
  passes : List PassCmd
deriving Repr

/-- `convertToGif(videoPath, gifPath, options)` from
`src/recorder/utils/ffmpeg.js`.  Pass 1 generates the palette at
`tempPalettePath`; on its `end` event pass 2 is assembled and run; pass 2's
handlers delete the palette file (guarded by `existsSync`) on both `end` and
`error` before resolving/rejecting.  Pass 1's `error` handler rejects
without any cleanup. -/
def convertToGif (videoPath gifPath : String) (options : GifOptionsIn)
    (env : ConvEnv) (fs0 : List String) : ConvResult :=
  let fps := options.fps.getD 10
  let scale := options.scale.getD "800:-1"
  let quality := options.quality.getD "medium"
  let startTime := options.startTime.getD 0
  let settings := resolvedQuality quality
  let tempPalettePath := jsReplaceFirst gifPath ".gif" "_palette.png"
  let pass1 : PassCmd :=
    { inputs := [videoPath], fps := fps,
      filters := [scaleFilter scale, palettegenFilter settings.colors],
      output := tempPalettePath,
      seek := if startTime > 0 then some startTime else none,
      dur := durationArg options.duration }
  match env.pass1Error with
  | some m =>
    { outcome := Except.error m,
      fs := if env.pass1Wrote then tempPalettePath :: fs0 else fs0,
      passes := [pass1] }
  | none =>
    let fs1 := tempPalettePath :: fs0
    let pass2 : PassCmd :=
      { inputs := [videoPath, tempPalettePath], fps := fps,
        filters := [scaleFilter scale, paletteuseFilter settings.dither],
        output := gifPath,
        seek := if startTime > 0 then some startTime else none,
        dur := durationArg options.duration }
    match env.pass2Error with
    | some m =>
      { outcome := Except.error m,
        fs := unlinkIfExists tempPalettePath fs1,
        passes := [pass1, pass2] }
    | none =>
      { outcome := Except.ok gifPath,
        fs := unlinkIfExists tempPalettePath (gifPath :: fs1),
        passes := [pass1, pass2] }

/-- The quality-tier table of spec §4.1, written from the spec's words, to be
compared with the code's `qualitySettings`/`resolvedQuality`. -/
def specQualityTable (q : String) : Option (Nat × String) :=
  if q = "low" then some (64, "sierra2_4a")
  else if q = "medium" then some (128, "floyd_steinberg")
  else if q = "high" then some (256, "floyd_steinberg")
  else none

/-! ## Configuration — `src/config/settings.js`

The settings object is assembled from environment variables at load time; it
is modelled as a plain record whose default field values are the source's
fallback values (the ones used when the environment variable is absent). -/

/-- The fields of `settings` that the recorder core consumes. -/
structure Settings where
  headless : Bool := false
  outputDir : String := "output"
  defaultStepDelay : Nat := 1500
  defaultGifOptions : GifOptionsIn :=
    { fps := some 10, scale := some "800:-1", quality := some "medium" }
deriving Repr

/-! ## Flow executor — `src/recorder/WebInteractionRecorder.js` -/

/-- The `options` bag of a step (only the fields the interpreter reads:
scroll offsets, a wait timeout, a screenshot flag). -/
structure StepOptions where
  x : Option Int := none
  y : Option Int := none
  timeout : Option Nat := none
  fullPage : Option Bool := none
deriving DecidableEq, Repr

/-- One step of a flow, as destructured by `executeStep` and the run loop. -/
structure Step where
  action : String
  selector : Option String := none
  value : JsVal := JsVal.undef
  name : Option String := none
  description : Option String := none
  delay : Option Nat := none
  options : StepOptions := {}
deriving DecidableEq, Repr

/-- The `options` field of a flow config (`{ stepDelay?, gif? }`). -/
structure FlowOptions where
  stepDelay : Option Nat := none
  gif : Option GifOptionsIn := none
deriving DecidableEq, Repr

/-- A flow config as destructured by `recordUserFlow`. -/
structure FlowConfig where
  name : String
  baseUrl : String
  steps : List Step
  options : FlowOptions := {}
deriving Repr

/-- One call the step interpreter makes against the Playwright page.  The
arguments are carried exactly as the source passes them (so a missing
selector stays `none` and the raw `value` stays a `JsVal`). -/
inductive PageAction where
  | waitForSelector (sel : Option String) (timeout : Nat)
  | click (sel : Option String) (opts : StepOptions)
  | fill (sel : Option String) (v : JsVal) (opts : StepOptions)
  | hover (sel : Option String)
  | scrollBy (x y : Int)
  | waitTimeout (ms : JsVal)
  | goto (url : JsVal)
  | screenshot (p : String) (fullPage : Bool)
  | selectOption (sel : Option String) (v : JsVal)
  | check (sel : Option String)
  | uncheck (sel : Option String)
  | keyPress (k : JsVal)
  | dragAndDrop (src : Option String) (dst : JsVal)
deriving DecidableEq, Repr

/-- The action kinds the `switch` in `executeStep` has a case for. -/
def recognizedActions : List String :=
  ["click", "type", "hover", "scroll", "wait", "navigate",
   "screenshot", "select", "check", "uncheck", "keypress", "drag"]

/-- The sequence of page calls a recognized action performs, read off the
corresponding `switch` case of `executeStep`.  Unrecognized actions plan
nothing (the `default` case only warns). -/
def plannedActions (outputDir : String) (step : Step) : List PageAction :=
  if step.action = "click" then
    [PageAction.waitForSelector step.selector 10000,
     PageAction.click step.selector step.options]
  else if step.action = "type" then
    [PageAction.waitForSelector step.selector 10000,
     PageAction.fill step.selector step.value step.options]
  else if step.action = "hover" then
    [PageAction.waitForSelector step.selector 10000,
     PageAction.hover step.selector]
  else if step.action = "scroll" then
    [PageAction.scrollBy (jsOrInt step.options.x 0) (jsOrInt step.options.y 500)]
  else if step.action = "wait" then
    if optTruthy step.selector then
      [PageAction.waitForSelector step.selector (jsOrNat step.options.timeout 30000)]
    else
      [PageAction.waitTimeout (jsOr step.value (JsVal.num 1000))]
  else if step.action = "navigate" then
    [PageAction.goto step.value]
  else if step.action = "screenshot" then
    [PageAction.screenshot
      (pathJoin outputDir (jsOrStr step.name "screenshot" ++ ".png"))
      (step.options.fullPage.getD false)]
  else if step.action = "select" then
    [PageAction.waitForSelector step.selector 10000,
     PageAction.selectOption step.selector step.value]
  else if step.action = "check" then
    [PageAction.waitForSelector step.selector 10000,
     PageAction.check step.selector]
  else if step.action = "uncheck" then
    [PageAction.waitForSelector step.selector 10000,
     PageAction.uncheck step.selector]
  else if step.action = "keypress" then
    [PageAction.keyPress step.value]
  else if step.action = "drag" then
    [PageAction.dragAndDrop step.selector step.value]
  else []

/-- Run a planned sequence of page calls against a page oracle; stop at the
first call the oracle rejects.  Returns the outcome and the calls actually
attempted (the failing call included). -/
def runActions (env : PageAction → Option String) :
    List PageAction → Except String Unit × List PageAction
  | [] => (Except.ok (), [])
  | a :: rest =>
    match env a with
    | some m => (Except.error m, [a])
    | none =>
      let r := runActions env rest
      (r.1, a :: r.2)

/-- The warning string of `executeStep`'s `default` case. -/
def unknownActionWarning (action : String) : String :=
  "⚠️ Unknown action: " ++ action

/-- `executeStep(step)`: for a recognized action, perform its page calls in
order, rethrowing the first failure; for an unrecognized one, log a warning
and return normally.  Result: (outcome, page calls attempted, warnings
logged). -/
def executeStep (outputDir : String) (step : Step)
    (env : PageAction → Option String) :
    Except String Unit × List PageAction × List String :=
  if step.action ∈ recognizedActions then
    let r := runActions env (plannedActions outputDir step)
    (r.1, r.2, [])
  else
    (Except.ok (), [], [unknownActionWarning step.action])

/-- The mutable fields of a `WebInteractionRecorder` instance.  `browser` and
`page` record whether `this.browser`/`this.page` are non-null. -/
structure RecorderState where
  outputDir : String
  headless : Bool := false
  browser : Bool := false
  page : Bool := false
  recording : Bool := false
  recordingId : Option String := none
deriving DecidableEq, Repr

/-- The constructor options `{ outputDir?, headless? }`. -/
structure RecorderOptions where
  outputDir : Option String := none
  headless : Option Bool := none
deriving Repr

/-- The `WebInteractionRecorder` constructor: option fields fall back to the
settings object (`!== undefined` checks, so `Option.getD`). -/
def mkRecorder (opts : RecorderOptions) (st : Settings) : RecorderState :=
  { outputDir := opts.outputDir.getD st.outputDir,
    headless := opts.headless.getD st.headless,
    browser := false, page := false, recording := false, recordingId := none }

/-- `close()`: clear the recording flag if set; then, if a browser is open,
close it and null out `browser` and `page`.  A total function — it never
raises. -/
def close (s : RecorderState) : RecorderState :=
  let s1 := if s.recording then { s with recording := false } else s
  if s1.browser then { s1 with browser := false, page := false } else s1

/-- `initialize()`: if a browser is already open, `close()` it first; then
launch a browser and open a page.  (The external launch is modelled as
succeeding; a launch failure is a `SessionUnavailable` raised before any
state other than the closed-out previous session is touched.) -/
def initBrowser (s : RecorderState) : RecorderState :=
  let s1 := if s.browser then close s else s
  { s1 with browser := true, page := true }

/-- The `status()` record returned by `getStatus`. -/
structure RecStatus where
  initialized : Bool
  recording : Bool
  recordingId : Option String
deriving DecidableEq, Repr

/-- `getStatus()`: `initialized` is `!!this.browser`. -/
def getStatus (s : RecorderState) : RecStatus :=
  ⟨s.browser, s.recording, s.recordingId⟩

/-- The record `recordingInfo` built by `recordUserFlow` (the Recording
Session of the spec). -/
structure RecordingInfo where
  id : String
  name : String
  status : String
  startTime : String
  endTime : Option String := none
  videoPath : String
  gifPath : String
  steps : Nat
  error : Option String := none
  videoSize : Option Nat := none
  gifSize : Option Nat := none
deriving DecidableEq, Repr

/-- Externally observable operations of one run, in the order they are
issued. -/
inductive Event where
  | videoStart
  | goto (url : String)
  | pause (ms : Nat)
  | step (i : Nat) (acts : List PageAction)
  | videoStop
  | rename (src dst : String)
  | convert (video gif : String) (opts : GifOptionsIn)
deriving DecidableEq, Repr

/-- The environment of one `recordUserFlow` call: the uuid and clock reads,
and the outcome of every external operation.  `stepEnv i` is the page oracle
step `i` runs against; `videoStop` yields the path Playwright reports for
the saved video. -/
structure RunEnv where
  newId : String
  timestampStr : String
  startTimeStr : String
  endTimeStr : String
  videoStart : Option String := none
  gotoResult : Option String := none
  stepEnv : Nat → PageAction → Option String
  videoStop : Except String String := Except.ok ""
  convert : Option String := none
  videoSize : Nat := 0
  gifSize : Nat := 0

/-- `step.delay || options.stepDelay || settings.defaultStepDelay` — the
inter-step delay of the run loop, with JavaScript `||` falsiness. -/
def resolveDelay (step : Step) (fo : FlowOptions) (st : Settings) : Nat :=
  jsOrNat step.delay (jsOrNat fo.stepDelay st.defaultStepDelay)

/-- The `for` loop over the steps: run each step; on success pause for the
resolved delay and continue; on failure stop, the error propagating.
Returns the outcome and the events issued. -/
def runSteps (st : Settings) (outputDir : String) (fo : FlowOptions)
    (env : RunEnv) : Nat → List Step → Except String Unit × List Event
  | _, [] => (Except.ok (), [])
  | i, step :: rest =>
    let r := executeStep outputDir step (env.stepEnv i)
    match r.1 with
    | Except.error m => (Except.error m, [Event.step i r.2.1])
    | Except.ok () =>
      let rest1 := runSteps st outputDir fo env (i + 1) rest
      (rest1.1,
       Event.step i r.2.1 :: Event.pause (resolveDelay step fo st) :: rest1.2)

/-- The video path `recordUserFlow` derives from the flow name and the
timestamp. -/
def videoPathOf (s : RecorderState) (flow : FlowConfig) (env : RunEnv) : String :=
  pathJoin (pathJoin s.outputDir "videos")
    (flow.name ++ "_" ++ env.timestampStr ++ ".webm")

/-- The gif path `recordUserFlow` derives likewise. -/
def gifPathOf (s : RecorderState) (flow : FlowConfig) (env : RunEnv) : String :=
  pathJoin (pathJoin s.outputDir "gifs")
    (flow.name ++ "_" ++ env.timestampStr ++ ".gif")

/-- What a `recordUserFlow` call left behind: the promise outcome, the final
contents of the local `recordingInfo` record (`none` when the initial guard
threw before it was created), the instance state, and the events issued. -/
structure RunResult where
  outcome : Except String RecordingInfo
  info : Option RecordingInfo
  state : RecorderState
  events : List Event

/-- The `catch` block of `recordUserFlow`: mark the Recording Session
`failed` with the error message and an end time, clear the recording flag,
and rethrow. -/
def failRun (info : RecordingInfo) (s : RecorderState) (evs : List Event)
    (env : RunEnv) (m : String) : RunResult :=
  { outcome := Except.error m,
    info := some { info with
      status := "failed"
      error := some m
      endTime := some env.endTimeStr },
    state := { s with recording := false },
    events := evs }

/-- `recordUserFlow(flowConfig)`: guard on `this.page`; generate an id and
derive paths; then, inside `try`, start capture, navigate, settle 2000ms,
run the steps with inter-step delays, settle 2000ms, stop capture, rename
the video if Playwright saved it elsewhere, and convert to GIF with
`options.gif || settings.defaultGifOptions`; on success mark the session
`completed` with sizes and end time.  Any failure goes through `failRun`. -/
def recordUserFlow (st : Settings) (s : RecorderState) (flow : FlowConfig)
    (env : RunEnv) : RunResult :=
  if s.page = false then
    { outcome := Except.error "Browser not initialized. Call initialize() first.",
      info := none, state := s, events := [] }
  else
    let videoPath := videoPathOf s flow env
    let gifPath := gifPathOf s flow env
    let info : RecordingInfo :=
      { id := env.newId, name := flow.name, status := "recording",
        startTime := env.startTimeStr, videoPath := videoPath,
        gifPath := gifPath, steps := flow.steps.length }
    let s1 := { s with recordingId := some env.newId, recording := true }
    match env.videoStart with
    | some m => failRun info s1 [Event.videoStart] env m
    | none =>
      match env.gotoResult with
      | some m =>
        failRun info s1 [Event.videoStart, Event.goto flow.baseUrl] env m
      | none =>
        let evs1 := [Event.videoStart, Event.goto flow.baseUrl, Event.pause 2000]
        match runSteps st s.outputDir flow.options env 0 flow.steps with
        | (Except.error m, sevs) => failRun info s1 (evs1 ++ sevs) env m
        | (Except.ok (), sevs) =>
          let evs2 := evs1 ++ sevs ++ [Event.pause 2000]
          match env.videoStop with
          | Except.error m => failRun info s1 (evs2 ++ [Event.videoStop]) env m
          | Except.ok videoFile =>
            let evs3 := evs2 ++ [Event.videoStop] ++
              (if videoFile = videoPath then []
               else [Event.rename videoFile videoPath])
            let gifOpts := flow.options.gif.getD st.defaultGifOptions
            let evs4 := evs3 ++ [Event.convert videoPath gifPath gifOpts]
            match env.convert with
            | some m => failRun info s1 evs4 env m
            | none =>
              let done :=
                { info with
                  status := "completed"
                  endTime := some env.endTimeStr
                  videoSize := some env.videoSize
                  gifSize := some env.gifSize }
              { outcome := Except.ok done, info := some done,
                state := { s1 with recording := false }, events := evs4 }

/-- The Recording Session record of a successful run. -/
def completedInfo (s : RecorderState) (flow : FlowConfig) (env : RunEnv) :
    RecordingInfo :=
  { id := env.newId, name := flow.name, status := "completed",
    startTime := env.startTimeStr, endTime := some env.endTimeStr,
    videoPath := videoPathOf s flow env, gifPath := gifPathOf s flow env,
    steps := flow.steps.length,
    videoSize := some env.videoSize, gifSize := some env.gifSize }

/-- The events the step loop issues when every page call succeeds: each step
in declaration order, each followed by its resolved inter-step delay. -/
def stepsTrace (st : Settings) (outputDir : String) (fo : FlowOptions) :
    Nat → List Step → List Event
  | _, [] => []
  | i, step :: rest =>
    Event.step i (plannedActions outputDir step) ::
      Event.pause (resolveDelay step fo st) ::
        stepsTrace st outputDir fo (i + 1) rest

/-- The full event trace of a successful run: capture start, navigation,
initial settle, the steps in order with their delays, trailing settle,
capture stop, the conditional rename, and the GIF conversion. -/
def successTrace (st : Settings) (s : RecorderState) (flow : FlowConfig)
    (env : RunEnv) (vf : String) : List Event :=
  [Event.videoStart, Event.goto flow.baseUrl, Event.pause 2000]
    ++ stepsTrace st s.outputDir flow.options 0 flow.steps
    ++ [Event.pause 2000, Event.videoStop]
    ++ (if vf = videoPathOf s flow env then []
        else [Event.rename vf (videoPathOf s flow env)])
    ++ [Event.convert (videoPathOf s flow env) (gifPathOf s flow env)
          (flow.options.gif.getD st.defaultGifOptions)]

/-- Every error message the run environment can signal is non-empty (the
realistic situation: driver and ffmpeg errors always carry a diagnostic). -/
def RunEnv.errorsNonempty (env : RunEnv) : Prop :=
  (∀ m, env.videoStart = some m → m ≠ "") ∧
  (∀ m, env.gotoResult = some m → m ≠ "") ∧
  (∀ i a m, env.stepEnv i a = some m → m ≠ "") ∧
  (∀ m, env.videoStop = Except.error m → m ≠ "") ∧
  (∀ m, env.convert = some m → m ≠ "")

/-! ## Shared lemmas -/

theorem not_mem_unlinkIfExists (p : String) (l : List String) :
    p ∉ unlinkIfExists p l := by
  unfold unlinkIfExists
  split
  · simp [List.mem_filter]
  · next h => exact h

theorem runActions_allOk (env : PageAction → Option String)
    (h : ∀ a, env a = none) (l : List PageAction) :
    runActions env l = (Except.ok (), l) := by
  induction l with
  | nil => rfl
  | cons a rest ih => simp [runActions, h a, ih]

theorem runActions_error (env : PageAction → Option String)
    (l : List PageAction) (m : String)
    (h : (runActions env l).1 = Except.error m) :
    ∃ a ∈ l, env a = some m := by
  induction l with
  | nil => simp [runActions] at h
  | cons a rest ih =>
    by_cases ha : env a = none
    · rw [runActions, ha] at h
      obtain ⟨b, hb, hbm⟩ := ih h
      exact ⟨b, List.mem_cons_of_mem a hb, hbm⟩
    · obtain ⟨m2, hm2⟩ := Option.ne_none_iff_exists.mp ha
      rw [runActions, ← hm2] at h
      simp at h
      exact ⟨a, List.mem_cons_self a rest, by rw [← hm2, h]⟩

theorem executeStep_allOk (outputDir : String) (step : Step)
    (env : PageAction → Option String) (h : ∀ a, env a = none) :
    (executeStep outputDir step env).1 = Except.ok () ∧
    (executeStep outputDir step env).2.1 = plannedActions outputDir step := by
  unfold executeStep
  split
  · rw [runActions_allOk env h]
    exact ⟨rfl, rfl⟩
  · next hn =>
    constructor
    · rfl
    · simp [plannedActions, recognizedActions] at hn
      obtain ⟨h1, h2, h3, h4, h5, h6, h7, h8, h9, h10, h11, h12⟩ := hn
      simp [plannedActions, h1, h2, h3, h4, h5, h6, h7, h8, h9, h10, h11, h12]

theorem executeStep_error (outputDir : String) (step : Step)
    (env : PageAction → Option String) (m : String)
    (h : (executeStep outputDir step env).1 = Except.error m) :
    ∃ a, env a = some m := by
  unfold executeStep at h
  split at h
  · obtain ⟨a, _, ha⟩ := runActions_error env _ m h
    exact ⟨a, ha⟩
  · simp at h

theorem runSteps_allOk (st : Settings) (outputDir : String)
    (fo : FlowOptions) (env : RunEnv)
    (h : ∀ i a, env.stepEnv i a = none) (i : Nat) (steps : List Step) :
    runSteps st outputDir fo env i steps =
      (Except.ok (), stepsTrace st outputDir fo i steps) := by
  induction steps generalizing i with
  | nil => rfl
  | cons step rest ih =>
    have he := executeStep_allOk outputDir step (env.stepEnv i) (h i)
    rw [runSteps, stepsTrace]
    rw [he.1, he.2, ih (i + 1)]

theorem runSteps_error (st : Settings) (outputDir : String)
    (fo : FlowOptions) (env : RunEnv) (i : Nat) (steps : List Step)
    (m : String) (h : (runSteps st outputDir fo env i steps).1 = Except.error m) :
    ∃ j a, env.stepEnv j a = some m := by
  induction steps generalizing i with
  | nil => simp [runSteps] at h
  | cons step rest ih =>
    rw [runSteps] at h
    rcases he : (executeStep outputDir step (env.stepEnv i)).1 with m2 | u
    · rw [he] at h
      simp at h
      obtain ⟨a, ha⟩ := executeStep_error outputDir step (env.stepEnv i) m2 he
      exact ⟨i, a, by rw [ha, h]⟩
    · rw [he] at h
      simp at h
      exact ih (i + 1) h

theorem recordUserFlow_allOk (st : Settings) (s : RecorderState)
    (flow : FlowConfig) (env : RunEnv) (vf : String)
    (hp : s.page = true)
    (h1 : env.videoStart = none) (h2 : env.gotoResult = none)
    (h3 : ∀ i a, env.stepEnv i a = none)
    (h4 : env.videoStop = Except.ok vf)
    (h5 : env.convert = none) :
    recordUserFlow st s flow env =
      { outcome := Except.ok (completedInfo s flow env)
        info := some (completedInfo s flow env)
        state := { s with recordingId := some env.newId, recording := false }
        events := successTrace st s flow env vf } := by
  have hs := runSteps_allOk st s.outputDir flow.options env h3 0 flow.steps
  rw [recordUserFlow]
  rw [if_neg (by simp [hp]), h1, h2, hs, h4, h5]
  simp [completedInfo, successTrace, videoPathOf, gifPathOf]

/-! ## Claims -/

/-- C1: for every quality tier in the §4.1 table, `convertToGif` assembles
its ffmpeg invocations with exactly the table's palette color count (in the
pass-1 `palettegen` filter) and dithering algorithm (in the pass-2
`paletteuse` filter): `low` ↦ 64 colors, `sierra2_4a` dither; `medium` ↦
128, `floyd_steinberg`; `high` ↦ 256, `floyd_steinberg`.  Stated as a
refinement against `specQualityTable`, the table written from the spec. -/
theorem C1_quality_table (v g : String) (opts : GifOptionsIn) (env : ConvEnv)
    (fs : List String) (colors : Nat) (dither : String)
    (h : specQualityTable (opts.quality.getD "medium") = some (colors, dither)) :
    (convertToGif v g opts env fs).passes.map PassCmd.filters =
      [scaleFilter (opts.scale.getD "800:-1"), palettegenFilter colors] ::
        (match env.pass1Error with
         | some _ => []
         | none =>
           [[scaleFilter (opts.scale.getD "800:-1"), paletteuseFilter dither]]) := by
  unfold specQualityTable at h
  have hres : resolvedQuality (opts.quality.getD "medium") = ⟨colors, dither⟩ := by
    unfold resolvedQuality qualitySettings
    split at h
    · next hq => simp at h; simp [hq, h.1, h.2]
    · split at h
      · next hq => simp at h; simp [hq, h.1, h.2]
      · split at h
        · next hq => simp at h; simp [hq, h.1, h.2]
        · simp at h
  simp only [convertToGif, hres]
  cases env.pass1Error <;> cases env.pass2Error <;> simp

/-- C1 witness: the `low` tier at concrete inputs. -/
theorem C1_quality_table_witness :
    (convertToGif "in.webm" "out/demo.gif" { quality := some "low" } {}
        []).passes.map PassCmd.filters =
      [["scale=800:-1:flags=lanczos", "palettegen=max_colors=64:stats_mode=diff"],
       ["scale=800:-1:flags=lanczos",
        "paletteuse=dither=sierra2_4a:bayer_scale=5:diff_mode=rectangle"]] :=
  C1_quality_table "in.webm" "out/demo.gif" { quality := some "low" } {} []
    64 "sierra2_4a" (by decide)

/-- C9: any quality value other than `low`, `medium` or `high` — the absent
option included — makes `convertToGif` fall back to the `medium` tier
settings, 128 colors and `floyd_steinberg` dither, in the invocations it
assembles; the input is not rejected. -/
theorem C9_quality_fallback (v g : String) (opts : GifOptionsIn)
    (env : ConvEnv) (fs : List String)
    (h : ∀ q, opts.quality = some q → q ∉ ["low", "medium", "high"]) :
    (convertToGif v g opts env fs).passes.map PassCmd.filters =
      [scaleFilter (opts.scale.getD "800:-1"), palettegenFilter 128] ::
        (match env.pass1Error with
         | some _ => []
         | none =>
           [[scaleFilter (opts.scale.getD "800:-1"),
             paletteuseFilter "floyd_steinberg"]]) := by
  have hres : resolvedQuality (opts.quality.getD "medium") =
      ⟨128, "floyd_steinberg"⟩ := by
    unfold resolvedQuality qualitySettings
    cases hq : opts.quality with
    | none => simp
    | some q =>
      have hm := h q hq
      simp at hm
      simp [hm.1, hm.2.1, hm.2.2]
  simp only [convertToGif, hres]
  cases env.pass1Error <;> cases env.pass2Error <;> simp

/-- C9 witness: an unrecognized quality string at concrete inputs. -/
theorem C9_quality_fallback_witness :
    (convertToGif "v.webm" "g.gif" { quality := some "ultra" } {}
        []).passes.map PassCmd.filters =
      [["scale=800:-1:flags=lanczos", "palettegen=max_colors=128:stats_mode=diff"],
       ["scale=800:-1:flags=lanczos",
        "paletteuse=dither=floyd_steinberg:bayer_scale=5:diff_mode=rectangle"]] :=
  C9_quality_fallback "v.webm" "g.gif" { quality := some "ultra" } {} []
    (by intro q hq; injection hq with h2; subst h2; decide)

/-- C3 counterexample: when the first (palette-generation) pass fails after
its output file has been opened, `convertToGif` rejects without any cleanup
and the intermediate palette file persists, contradicting the claim that the
palette is deleted on every failure path. -/
theorem C3_counterexample :
    (convertToGif "in.webm" "out/demo.gif" {}
        { pass1Error := some "ffmpeg exited with code 1", pass1Wrote := true }
        []).outcome = Except.error "ffmpeg exited with code 1" ∧
    "out/demo_palette.png" ∈
      (convertToGif "in.webm" "out/demo.gif" {}
        { pass1Error := some "ffmpeg exited with code 1", pass1Wrote := true }
        []).fs :=
  ⟨rfl, by decide⟩

/-- C3 (amended): if the palette-generation pass succeeds, the intermediate
palette file is deleted before `convertToGif` returns, on both the success
path and the pass-2 failure path; a failure of the first pass, however,
performs no cleanup, so a partially written palette file can persist. -/
theorem C3_palette_cleanup (v g : String) (opts : GifOptionsIn)
    (env : ConvEnv) (fs0 : List String) (h : env.pass1Error = none) :
    jsReplaceFirst g ".gif" "_palette.png" ∉ (convertToGif v g opts env fs0).fs := by
  unfold convertToGif
  rw [h]
  cases env.pass2Error <;> simp <;> exact not_mem_unlinkIfExists _ _

/-- C3 witness: success path at concrete inputs; the palette file is gone. -/
theorem C3_palette_cleanup_witness :
    "out/a_palette.png" ∉ (convertToGif "v.webm" "out/a.gif" {} {} []).fs :=
  C3_palette_cleanup "v.webm" "out/a.gif" {} {} [] rfl

/-- C5 counterexample: a step with an explicit delay of `0` does not
suppress the inter-step sleep — the run loop computes the delay with `||`,
so `0` falls through to the global default of 1500ms. -/
theorem C5_counterexample :
    resolveDelay { action := "click", selector := some "#a", delay := some 0 }
      {} {} = 1500 ∧ (1500 : Nat) ≠ 0 := by
  constructor
  · rfl
  · decide

/-- C5 (amended): after a step succeeds the executor sleeps for `step.delay`
if it is present and non-zero, else `flow.options.stepDelay` if present and
non-zero, else the global default step delay; an explicitly specified delay
of `0` is falsy under the source's `||` chain and falls back to the flow or
global default instead of meaning no sleep.  The last conjunct ties the
resolved delay to the run loop: the pause issued after a successful step is
exactly `resolveDelay`. -/
theorem C5_delay_resolution :
    (∀ (step : Step) (fo : FlowOptions) (st : Settings) (d : Nat),
       step.delay = some d → d ≠ 0 → resolveDelay step fo st = d) ∧
    (∀ (step : Step) (fo : FlowOptions) (st : Settings) (m : Nat),
       (step.delay = none ∨ step.delay = some 0) →
       fo.stepDelay = some m → m ≠ 0 → resolveDelay step fo st = m) ∧
    (∀ (step : Step) (fo : FlowOptions) (st : Settings),
       (step.delay = none ∨ step.delay = some 0) →
       (fo.stepDelay = none ∨ fo.stepDelay = some 0) →
       resolveDelay step fo st = st.defaultStepDelay) ∧
    (∀ (st : Settings) (od : String) (fo : FlowOptions) (env : RunEnv)
       (i : Nat) (step : Step) (rest : List Step),
       (executeStep od step (env.stepEnv i)).1 = Except.ok () →
       (runSteps st od fo env i (step :: rest)).2 =
         Event.step i (executeStep od step (env.stepEnv i)).2.1 ::
           Event.pause (resolveDelay step fo st) ::
             (runSteps st od fo env (i + 1) rest).2) := by
  refine ⟨?_, ?_, ?_, ?_⟩
  · intro step fo st d hd hne
    simp [resolveDelay, hd, jsOrNat, hne]
  · intro step fo st m hd hm hne
    rcases hd with h | h <;> simp [resolveDelay, h, hm, jsOrNat, hne]
  · intro step fo st hd hm
    rcases hd with h | h <;> rcases hm with h2 | h2 <;>
      simp [resolveDelay, h, h2, jsOrNat]
  · intro st od fo env i step rest hok
    rw [runSteps, hok]

/-- C5 witness: concrete instantiations of all four conjuncts. -/
theorem C5_delay_resolution_witness :
    resolveDelay { action := "wait", delay := some 250 } {} {} = 250 ∧
    resolveDelay { action := "wait", delay := some 0 }
      { stepDelay := some 700 } {} = 700 ∧
    resolveDelay { action := "wait", delay := none } { stepDelay := some 0 }
      {} = 1500 ∧
    (runSteps {} "out" {}
        { newId := "i"
          timestampStr := "t"
          startTimeStr := "a"
          endTimeStr := "b"
          stepEnv := fun _ _ => none } 0
        [{ action := "keypress", value := JsVal.str "Enter" }]).2 =
      Event.step 0 [PageAction.keyPress (JsVal.str "Enter")] ::
        Event.pause 1500 :: [] :=
  ⟨C5_delay_resolution.1 _ {} {} 250 rfl (by decide),
   C5_delay_resolution.2.1 _ { stepDelay := some 700 } {} 700
     (Or.inr rfl) rfl (by decide),
   C5_delay_resolution.2.2.1 _ { stepDelay := some 0 } {}
     (Or.inl rfl) (Or.inr rfl),
   C5_delay_resolution.2.2.2 {} "out" {} _ 0 _ [] rfl⟩

/-- C8: `close()` is idempotent and total (it is a pure state transformation
in this model, so it never raises): closing twice equals closing once, and
afterwards `status()` reports no open session and no recording in progress —
from any state, a recording in progress included. -/
theorem C8_close_idempotent (s : RecorderState) :
    close (close s) = close s ∧
    (getStatus (close (close s))).initialized = false ∧
    (getStatus (close (close s))).recording = false := by
  cases s with
  | mk od hl br pg rec rid =>
    cases br <;> cases rec <;> simp [close, getStatus]

/-- C10: calling `recordUserFlow` on an executor whose page handle is absent
(never initialized, or closed — the second conjunct shows `close` clears the
page handle whenever the state is reachable, i.e. a page implies a browser)
throws the browser-not-initialized error and touches nothing: the state is
returned unchanged (no recording id generated) and no event — capture start
or otherwise — is issued, and no info record (with its derived artifact
paths) is created. -/
theorem C10_uninitialized_guard :
    (∀ (st : Settings) (s : RecorderState) (flow : FlowConfig) (env : RunEnv),
       s.page = false →
       recordUserFlow st s flow env =
         { outcome :=
             Except.error "Browser not initialized. Call initialize() first.",
           info := none, state := s, events := [] }) ∧
    (∀ s2 : RecorderState, (s2.page = true → s2.browser = true) →
       (close s2).page = false) := by
  constructor
  · intro st s flow env hp
    rw [recordUserFlow, if_pos hp]
  · intro s2 hwf
    cases s2 with
    | mk od hl br pg rec rid =>
      cases br <;> cases rec <;> cases pg <;> simp_all [close]

/-- C10 witness: a freshly constructed recorder rejects a run untouched, and
closing clears the page handle. -/
theorem C10_uninitialized_guard_witness :
    recordUserFlow {} (mkRecorder {} {})
        { name := "demo", baseUrl := "http://app", steps := [] }
        { newId := "i", timestampStr := "t", startTimeStr := "a",
          endTimeStr := "b", stepEnv := fun _ _ => none } =
      { outcome :=
          Except.error "Browser not initialized. Call initialize() first.",
        info := none, state := mkRecorder {} {}, events := [] } ∧
    (close { outputDir := "o", browser := true, page := true }).page = false :=
  ⟨C10_uninitialized_guard.1 {} (mkRecorder {} {}) _ _ rfl,
   C10_uninitialized_guard.2 { outputDir := "o", browser := true, page := true }
     (fun _ => rfl)⟩

theorem failRun_spec (info : RecordingInfo) (s : RecorderState)
    (evs : List Event) (env : RunEnv) (m : String) (hm : m ≠ "") :
    ∃ ri, (failRun info s evs env m).info = some ri ∧
      ri.status ≠ "recording" ∧
      (failRun info s evs env m).state.recording = false ∧
      (∀ m2, (failRun info s evs env m).outcome = Except.error m2 →
        ri.status = "failed" ∧ ri.error = some m2 ∧ m2 ≠ "" ∧
        ri.endTime = some env.endTimeStr) ∧
      (∀ d, (failRun info s evs env m).outcome = Except.ok d →
        ri.status = "completed") := by
  refine ⟨_, rfl, (by decide : ("failed" : String) ≠ "recording"), rfl, ?_, ?_⟩
  · intro m2 hm2
    injection hm2 with h2
    subst h2
    exact ⟨rfl, rfl, hm, rfl⟩
  · intro d hd
    exact Except.noConfusion hd

theorem stepsTrace_mem (st : Settings) (od : String) (fo : FlowOptions) :
    ∀ (steps : List Step) (i0 j : Nat) (hj : j < steps.length),
      Event.step (i0 + j) (plannedActions od (steps.get ⟨j, hj⟩)) ∈
        stepsTrace st od fo i0 steps := by
  intro steps
  induction steps with
  | nil => intro i0 j hj; simp at hj
  | cons step rest ih =>
    intro i0 j hj
    cases j with
    | zero => simp [stepsTrace]
    | succ j2 =>
      have hj2 : j2 < rest.length := by simpa using hj
      have hmem := ih (i0 + 1) j2 hj2
      rw [stepsTrace]
      refine List.mem_cons_of_mem _ (List.mem_cons_of_mem _ ?_)
      have harith : i0 + 1 + j2 = i0 + (j2 + 1) := by omega
      rw [harith] at hmem
      simpa using hmem

/-- C7: in a run where every external operation succeeds, the event trace is
exactly: capture start, navigation to the flow's base target, the initial
settle, the steps in declaration order (each followed by its inter-step
delay), the trailing settle, capture stop, and then the post-capture
conversion — so every step's action falls strictly inside the capture
window, in order, none skipped. -/
theorem C7_run_ordering (st : Settings) (s : RecorderState)
    (flow : FlowConfig) (env : RunEnv) (vf : String)
    (hp : s.page = true)
    (h1 : env.videoStart = none) (h2 : env.gotoResult = none)
    (h3 : ∀ i a, env.stepEnv i a = none)
    (h4 : env.videoStop = Except.ok vf)
    (h5 : env.convert = none) :
    (recordUserFlow st s flow env).events = successTrace st s flow env vf := by
  rw [recordUserFlow_allOk st s flow env vf hp h1 h2 h3 h4 h5]

/-- C7 witness: the trace of a concrete two-step run. -/
theorem C7_run_ordering_witness :
    (recordUserFlow {}
        { outputDir := "out", browser := true, page := true }
        { name := "demo", baseUrl := "http://app",
          steps := [{ action := "click", selector := some "#a" },
                    { action := "keypress", value := JsVal.str "Enter" }] }
        { newId := "id1"
          timestampStr := "ts"
          startTimeStr := "t0"
          endTimeStr := "t1"
          stepEnv := fun _ _ => none
          videoStop := Except.ok "v" }).events =
      successTrace {}
        { outputDir := "out", browser := true, page := true }
        { name := "demo", baseUrl := "http://app",
          steps := [{ action := "click", selector := some "#a" },
                    { action := "keypress", value := JsVal.str "Enter" }] }
        { newId := "id1"
          timestampStr := "ts"
          startTimeStr := "t0"
          endTimeStr := "t1"
          stepEnv := fun _ _ => none
          videoStop := Except.ok "v" } "v" :=
  C7_run_ordering {} _ _ _ "v" rfl rfl rfl (fun _ _ => rfl) rfl rfl

/-- C4: a step whose action kind is not one of the twelve recognized kinds
makes `executeStep` log one warning, attempt no page interaction, and return
without error; consequently a flow containing such steps still completes
when its valid steps succeed — under an all-successful page oracle any flow
(unrecognized steps included) reaches status `completed` with every step
executed in the trace. -/
theorem C4_unknown_action_noop :
    (∀ (outputDir : String) (step : Step) (env : PageAction → Option String),
       step.action ∉ recognizedActions →
       executeStep outputDir step env =
         (Except.ok (), [], [unknownActionWarning step.action])) ∧
    (∀ (st : Settings) (s : RecorderState) (flow : FlowConfig) (env : RunEnv)
       (vf : String),
       s.page = true → env.videoStart = none → env.gotoResult = none →
       (∀ i a, env.stepEnv i a = none) → env.videoStop = Except.ok vf →
       env.convert = none →
       ∃ ri, (recordUserFlow st s flow env).outcome = Except.ok ri ∧
         ri.status = "completed" ∧
         ∀ (j : Nat) (hj : j < flow.steps.length),
           Event.step j (plannedActions s.outputDir (flow.steps.get ⟨j, hj⟩)) ∈
             (recordUserFlow st s flow env).events) := by
  constructor
  · intro outputDir step env h
    rw [executeStep, if_neg h]
  · intro st s flow env vf hp h1 h2 h3 h4 h5
    rw [recordUserFlow_allOk st s flow env vf hp h1 h2 h3 h4 h5]
    refine ⟨completedInfo s flow env, rfl, rfl, ?_⟩
    intro j hj
    have hmem := stepsTrace_mem st s.outputDir flow.options flow.steps 0 j hj
    rw [Nat.zero_add] at hmem
    unfold successTrace
    exact List.mem_append_left _ (List.mem_append_left _
      (List.mem_append_left _ (List.mem_append_right _ hmem)))

/-- C4 witness: a concrete unknown action is a warned no-op, and a concrete
flow with an unknown action between two valid steps completes with both
valid steps executed. -/
theorem C4_unknown_action_noop_witness :
    executeStep "out" { action := "frobnicate" } (fun _ => none) =
      (Except.ok (), [], [unknownActionWarning "frobnicate"]) ∧
    (∃ ri, (recordUserFlow {}
        { outputDir := "out", browser := true, page := true }
        { name := "demo", baseUrl := "http://app",
          steps := [{ action := "click", selector := some "#a" },
                    { action := "frobnicate" },
                    { action := "keypress", value := JsVal.str "Enter" }] }
        { newId := "id1"
          timestampStr := "ts"
          startTimeStr := "t0"
          endTimeStr := "t1"
          stepEnv := fun _ _ => none
          videoStop := Except.ok "v" }).outcome = Except.ok ri ∧
      ri.status = "completed" ∧
      ∀ (j : Nat) (hj : j < 3),
        Event.step j (plannedActions "out"
            ([{ action := "click", selector := some "#a" },
              { action := "frobnicate" },
              { action := "keypress", value := JsVal.str "Enter" }].get ⟨j, hj⟩)) ∈
          (recordUserFlow {}
            { outputDir := "out", browser := true, page := true }
            { name := "demo", baseUrl := "http://app",
              steps := [{ action := "click", selector := some "#a" },
                        { action := "frobnicate" },
                        { action := "keypress", value := JsVal.str "Enter" }] }
            { newId := "id1"
              timestampStr := "ts"
              startTimeStr := "t0"
              endTimeStr := "t1"
              stepEnv := fun _ _ => none
              videoStop := Except.ok "v" }).events) :=
  ⟨C4_unknown_action_noop.1 "out" { action := "frobnicate" } (fun _ => none)
     (by decide),
   C4_unknown_action_noop.2 {} _ _ _ "v" rfl rfl rfl (fun _ _ => rfl) rfl rfl⟩

/-- C6 counterexample: on an instance whose `recording` flag is already set,
`recordUserFlow` proceeds and completes instead of failing fast (it checks
only the page handle), and `initBrowser` on an instance already holding a
session succeeds, silently replacing the session instead of failing. -/
theorem C6_counterexample :
    (∃ ri, (recordUserFlow {}
        { outputDir := "out", browser := true, page := true,
          recording := true, recordingId := some "rid" }
        { name := "demo", baseUrl := "http://app", steps := [] }
        { newId := "id1"
          timestampStr := "ts"
          startTimeStr := "t0"
          endTimeStr := "t1"
          stepEnv := fun _ _ => none
          videoStop := Except.ok "v" }).outcome = Except.ok ri ∧
      ri.status = "completed") ∧
    initBrowser
        { outputDir := "out", browser := true, page := true,
          recording := true, recordingId := some "rid" } =
      { outputDir := "out", browser := true, page := true,
        recording := false, recordingId := some "rid" } :=
  ⟨⟨_, rfl, rfl⟩, rfl⟩

/-- C6 (amended): the executor enforces no mutual exclusion.  A run started
while `recording` is already set on the instance proceeds normally (the only
gate is the page handle) and completes under a successful environment, and
`initBrowser` on an instance already holding a session never fails: it
closes the held session and opens a fresh one, preserving the output
directory and recording id. -/
theorem C6_no_mutual_exclusion :
    (∀ (st : Settings) (s : RecorderState) (flow : FlowConfig) (env : RunEnv)
       (vf : String),
       s.page = true → s.recording = true →
       env.videoStart = none → env.gotoResult = none →
       (∀ i a, env.stepEnv i a = none) → env.videoStop = Except.ok vf →
       env.convert = none →
       ∃ ri, (recordUserFlow st s flow env).outcome = Except.ok ri ∧
         ri.status = "completed") ∧
    (∀ s2 : RecorderState, s2.browser = true →
       initBrowser s2 =
         { s2 with browser := true, page := true, recording := false }) := by
  constructor
  · intro st s flow env vf hp _ h1 h2 h3 h4 h5
    rw [recordUserFlow_allOk st s flow env vf hp h1 h2 h3 h4 h5]
    exact ⟨completedInfo s flow env, rfl, rfl⟩
  · intro s2 hb
    cases s2 with
    | mk od hl br pg rec rid =>
      subst hb
      cases rec <;> simp [initBrowser, close]

/-- C6 witness: concrete instantiations of both conjuncts of the amended
claim. -/
theorem C6_no_mutual_exclusion_witness :
    (∃ ri, (recordUserFlow {}
        { outputDir := "o2", browser := true, page := true,
          recording := true, recordingId := some "old" }
        { name := "n", baseUrl := "http://b",
          steps := [{ action := "keypress", value := JsVal.str "a" }] }
        { newId := "id2"
          timestampStr := "ts2"
          startTimeStr := "s0"
          endTimeStr := "s1"
          stepEnv := fun _ _ => none
          videoStop := Except.ok "w" }).outcome = Except.ok ri ∧
      ri.status = "completed") ∧
    initBrowser
        { outputDir := "o2", browser := true, page := false,
          recording := false, recordingId := none } =
      { outputDir := "o2", browser := true, page := true,
        recording := false, recordingId := none } :=
  ⟨C6_no_mutual_exclusion.1 {} _ _ _ "w" rfl rfl rfl rfl
     (fun _ _ => rfl) rfl rfl,
   C6_no_mutual_exclusion.2
     { outputDir := "o2", browser := true, page := false,
       recording := false, recordingId := none } rfl⟩

/-- C2: for every failure during a run on an initialized executor — capture
start, navigation, step execution, capture stop or encoding — the Recording
Session record is transitioned to status `failed` with the (non-empty, given
that the environment's diagnostics are non-empty) error message and an end
timestamp, and the rethrown error is that same message; the instance's
recording flag is cleared; and after the call the record's status is never
`recording` — it is `failed` exactly on the throwing paths and `completed`
exactly on the resolving path. -/
theorem C2_failure_transitions (st : Settings) (s : RecorderState)
    (flow : FlowConfig) (env : RunEnv) (hp : s.page = true)
    (hne : RunEnv.errorsNonempty env) :
    ∃ ri, (recordUserFlow st s flow env).info = some ri ∧
      ri.status ≠ "recording" ∧
      (recordUserFlow st s flow env).state.recording = false ∧
      (∀ m, (recordUserFlow st s flow env).outcome = Except.error m →
        ri.status = "failed" ∧ ri.error = some m ∧ m ≠ "" ∧
        ri.endTime = some env.endTimeStr) ∧
      (∀ d, (recordUserFlow st s flow env).outcome = Except.ok d →
        ri.status = "completed") := by
  obtain ⟨hn1, hn2, hn3, hn4, hn5⟩ := hne
  rw [recordUserFlow, if_neg (by simp [hp])]
  cases hv : env.videoStart with
  | some m => exact failRun_spec _ _ _ env m (hn1 m hv)
  | none =>
    cases hg : env.gotoResult with
    | some m => exact failRun_spec _ _ _ env m (hn2 m hg)
    | none =>
      rcases hsr : runSteps st s.outputDir flow.options env 0 flow.steps
        with ⟨r, sevs⟩
      cases r with
      | error m =>
        have hm1 : (runSteps st s.outputDir flow.options env 0 flow.steps).1
            = Except.error m := by rw [hsr]
        obtain ⟨j, a, hja⟩ :=
          runSteps_error st s.outputDir flow.options env 0 flow.steps m hm1
        exact failRun_spec _ _ _ env m (hn3 j a m hja)
      | ok u =>
        cases u
        cases hvs : env.videoStop with
        | error m => exact failRun_spec _ _ _ env m (hn4 m hvs)
        | ok vf =>
          cases hc : env.convert with
          | some m => exact failRun_spec _ _ _ env m (hn5 m hc)
          | none =>
            refine ⟨_, rfl,
              (by decide : ("completed" : String) ≠ "recording"), rfl,
              ?_, ?_⟩
            · intro m hm
              exact Except.noConfusion hm
            · intro d _
              rfl

/-- C2 witness: a concrete run whose navigation fails: the session record is
`failed` with the navigation error and an end time, the flag is cleared, and
the same message is rethrown. -/
theorem C2_failure_transitions_witness :
    ∃ ri, (recordUserFlow {}
        { outputDir := "out", browser := true, page := true }
        { name := "demo", baseUrl := "http://unreachable", steps := [] }
        { newId := "id1"
          timestampStr := "ts"
          startTimeStr := "t0"
          endTimeStr := "t1"
          gotoResult := some "net::ERR_CONNECTION_REFUSED"
          stepEnv := fun _ _ => none
          videoStop := Except.ok "v" }).info = some ri ∧
      ri.status ≠ "recording" ∧
      (recordUserFlow {}
        { outputDir := "out", browser := true, page := true }
        { name := "demo", baseUrl := "http://unreachable", steps := [] }
        { newId := "id1"
          timestampStr := "ts"
          startTimeStr := "t0"
          endTimeStr := "t1"
          gotoResult := some "net::ERR_CONNECTION_REFUSED"
          stepEnv := fun _ _ => none
          videoStop := Except.ok "v" }).state.recording = false ∧
      (∀ m, (recordUserFlow {}
        { outputDir := "out", browser := true, page := true }
        { name := "demo", baseUrl := "http://unreachable", steps := [] }
        { newId := "id1"
          timestampStr := "ts"
          startTimeStr := "t0"
          endTimeStr := "t1"
          gotoResult := some "net::ERR_CONNECTION_REFUSED"
          stepEnv := fun _ _ => none
          videoStop := Except.ok "v" }).outcome = Except.error m →
        ri.status = "failed" ∧ ri.error = some m ∧ m ≠ "" ∧
        ri.endTime = some "t1") ∧
      (∀ d, (recordUserFlow {}
        { outputDir := "out", browser := true, page := true }
        { name := "demo", baseUrl := "http://unreachable", steps := [] }
        { newId := "id1"
          timestampStr := "ts"
          startTimeStr := "t0"
          endTimeStr := "t1"
          gotoResult := some "net::ERR_CONNECTION_REFUSED"
          stepEnv := fun _ _ => none
          videoStop := Except.ok "v" }).outcome = Except.ok d →
        ri.status = "completed") :=
  C2_failure_transitions {}
    { outputDir := "out", browser := true, page := true }
    { name := "demo", baseUrl := "http://unreachable", steps := [] }
    { newId := "id1"
      timestampStr := "ts"
      startTimeStr := "t0"
      endTimeStr := "t1"
      gotoResult := some "net::ERR_CONNECTION_REFUSED"
      stepEnv := fun _ _ => none
      videoStop := Except.ok "v" } rfl
    ⟨by intro m h; exact Option.noConfusion h,
     by intro m h; injection h with h2; subst h2; decide,
     by intro i a m h; exact Option.noConfusion h,
     by intro m h; exact Except.noConfusion h,
     by intro m h; exact Option.noConfusion h⟩
